import Mathlib

set_option maxRecDepth 8000

deriving instance DecidableEq for Except

/-!
Shallow embedding of the command interpretation and dispatch core of this
repository.  The only source file is src/qutebrowser/app.py; the parts of it
with logical content are `QuteBrowser.cmd_handler` (the dispatcher with its
name-to-handler table and the count branching on `self.sender().count`) and
`QuteBrowser.pyeval`.  The collaborators the spec describes (the Command-Line
Parser, the Command Registry and the Key-Sequence Matcher, which in the real
tree live in qutebrowser/commands/utils.py and qutebrowser/commands/keys.py)
are not under src/, so they are modelled from the spec where a claim needs
them; each such definition is marked in its doc comment.
-/

/-- The handler methods that appear as values of the `handlers` dict literal
in `QuteBrowser.cmd_handler` (src/qutebrowser/app.py lines 142-159).  They are
opaque actions of the surrounding application; we only track their identity. -/
inductive Handler where
  | openurl
  | tabopen
  | quit
  | cur_close
  | switch_prev
  | switch_next
  | cur_reload
  | cur_stop
  | cur_back
  | cur_forward
  | cur_print
  | cur_scroll
  | cur_scroll_percent_x
  | cur_scroll_percent_y
  | undo_close
  | pyeval
deriving DecidableEq

/-- The `handlers` dict literal of `cmd_handler`, in source order.  Note the
key "scroll_perc_y" occurs twice (app.py lines 155-156): first bound to
`cur_scroll_percent_x`, then to `cur_scroll_percent_y`. -/
def handlersList : List (String × Handler) :=
  [("open", .openurl),
   ("tabopen", .tabopen),
   ("quit", .quit),
   ("tabclose", .cur_close),
   ("tabprev", .switch_prev),
   ("tabnext", .switch_next),
   ("reload", .cur_reload),
   ("stop", .cur_stop),
   ("back", .cur_back),
   ("forward", .cur_forward),
   ("print", .cur_print),
   ("scroll", .cur_scroll),
   ("scroll_perc_y", .cur_scroll_percent_x),
   ("scroll_perc_y", .cur_scroll_percent_y),
   ("undo", .undo_close),
   ("pyeval", .pyeval)]

/-- First-match association-list lookup. -/
def dictLookup (k : String) : List (String × Handler) → Option Handler
  | [] => none
  | (k2, v) :: rest => if k = k2 then some v else dictLookup k rest

/-- Lookup in the `handlers` dict with Python dict-literal semantics: a later
occurrence of a duplicate key overwrites an earlier one, so we search the
entry list from the end. -/
def handlersLookup (k : String) : Option Handler :=
  dictLookup k handlersList.reverse

/-- Python exceptions that `cmd_handler` itself can raise (and nothing in
app.py catches): `handlers[cmd]` raises KeyError on a missing key and
`argv[0]` raises IndexError on an empty list. -/
inductive PyExc where
  | keyError (key : String)
  | indexError
deriving DecidableEq

/-- A performed call of a handler method.  `countArg = none` means the call
carried no `count` keyword argument at all; `countArg = some c` means the
keyword argument `count` was passed with value `c` (where `c = none` is
Python's None). -/
structure HandlerCall where
  handler : Handler
  args : List String
  countArg : Option (Option Nat)
deriving DecidableEq

/-- `QuteBrowser.cmd_handler` from src/qutebrowser/app.py lines 130-166.
`tpl` is the emitted tuple `(count, argv)` with `argv = [cmd, arg, ...]`;
`senderCount` is `self.sender().count`, the emitting command's count flag.
The branching is exactly the source's:
`if self.sender().count: handler(*args, count=count) else: handler(*args)`. -/
def cmd_handler (senderCount : Bool) (tpl : Option Nat × List String) :
    Except PyExc HandlerCall :=
  match tpl.2 with
  | [] => .error .indexError
  | cmd :: args =>
    match handlersLookup cmd with
    | none => .error (.keyError cmd)
    | some h =>
      if senderCount then .ok ⟨h, args, some tpl.1⟩
      else .ok ⟨h, args, none⟩

/-- The interaction-time errors named by the spec (section 7).
`CountNotSupportedError` is included so that claims about it can be stated;
as the theorems below show, the code never produces it. -/
inductive CmdError where
  | EmptyCommandError
  | MalformedCountError
  | UnknownCommandError (name : String)
  | CountNotSupportedError
  | NoMatchError
deriving DecidableEq

/-- A parsed command-line invocation (spec section 3). -/
structure ParsedInvocation where
  count : Option Nat
  name : String
  args : List String
deriving DecidableEq

/-- Whitespace characters recognised by Python's `str.split()`. -/
def isWsChar (c : Char) : Bool :=
  c = ' ' || c = '\t' || c = '\n' || c = '\r'

/-- Helper of `tokenize`: `acc` holds the current token reversed. -/
def tokenizeAux : List Char → List Char → List (List Char)
  | [], acc => if acc.isEmpty then [] else [acc.reverse]
  | c :: rest, acc =>
    if isWsChar c then
      if acc.isEmpty then tokenizeAux rest []
      else acc.reverse :: tokenizeAux rest []
    else tokenizeAux rest (c :: acc)

/-- Split a line into whitespace-delimited tokens, dropping empty parts
(the behaviour of Python's `str.split()` with no argument). -/
def tokenize (line : List Char) : List (List Char) :=
  tokenizeAux line []

/-- Numeric value of a nonempty run of decimal digit characters. -/
def digitsToNat (ds : List Char) : Nat :=
  ds.foldl (fun n c => 10 * n + (c.toNat - '0'.toNat)) 0

/-- Modelled from the spec: the Command-Line Parser (spec section 4.3); its
code, qutebrowser/commands/utils.py `CommandParser`, is not under src/.
The leading whitespace-delimited run of decimal digits, when present, becomes
the optional count; the next token is the command name; the rest are the
arguments.  An empty token list fails with `EmptyCommandError`; a count with
nothing after it fails with `MalformedCountError`. -/
def parseTokens (toks : List (List Char)) : Except CmdError ParsedInvocation :=
  match toks with
  | [] => .error .EmptyCommandError
  | t :: rest =>
    if !t.isEmpty && t.all Char.isDigit then
      match rest with
      | [] => .error .MalformedCountError
      | nm :: args => .ok ⟨some (digitsToNat t), String.mk nm, args.map (fun a => String.mk a)⟩
    else
      .ok ⟨none, String.mk t, rest.map (fun a => String.mk a)⟩

/-- Parse one line of command text (spec section 4.3). -/
def parse_line (line : List Char) : Except CmdError ParsedInvocation :=
  parseTokens (tokenize line)

/-- First-match lookup in the registry, which maps a command name to its
`accepts_count` flag (the `count` attribute of the registered Command). -/
def regLookup : List (String × Bool) → String → Option Bool
  | [], _ => none
  | (k, ac) :: rest, name => if name = k then some ac else regLookup rest name

/-- Modelled from the spec: the Command Registry lookup (spec section 4.1);
its code, qutebrowser/commands/utils.py `cmd_dict`, is not under src/.
A name that is not registered fails with `UnknownCommandError`. -/
def registry_lookup (reg : List (String × Bool)) (name : String) :
    Except CmdError Bool :=
  match regLookup reg name with
  | some ac => .ok ac
  | none => .error (.UnknownCommandError name)

/-- Observable events of one dispatch: the command's signal emission (the
invocation-notification; `init_cmds` in app.py connects every command's
signal to `cmd_handler`) and the resulting handler call. -/
inductive Event where
  | signalEmit (tpl : Option Nat × List String)
  | actionCall (call : HandlerCall)
deriving DecidableEq

/-- Result of running one command line through the pipeline:
an interaction-time error (emitted on the error signal), an uncaught Python
exception inside the dispatch slot, or a successful run with its events. -/
inductive RunResult where
  | errored (e : CmdError)
  | crashed
  | ok (events : List Event)
deriving DecidableEq

/-- Modelled from the spec and the wiring in app.py: the registered command
emits its signal with the tuple `(count, [name] + args)` (the form stated by
`cmd_handler`'s docstring), and `cmd_handler` - connected to that signal by
`init_cmds` - then performs the handler call.  The registry lookup precedes
the emission; an unknown name therefore never reaches `cmd_handler`. -/
def dispatch_invocation (reg : List (String × Bool)) (inv : ParsedInvocation) :
    RunResult :=
  match registry_lookup reg inv.name with
  | .error e => .errored e
  | .ok ac =>
    let tpl : Option Nat × List String := (inv.count, inv.name :: inv.args)
    match cmd_handler ac tpl with
    | .error _ => .crashed
    | .ok call => .ok [.signalEmit tpl, .actionCall call]

/-- Run one line of command text: parse, then dispatch. -/
def run_line (reg : List (String × Bool)) (line : List Char) : RunResult :=
  match parse_line line with
  | .error e => .errored e
  | .ok inv => dispatch_invocation reg inv

/-- Whether the process keeps running or exits. -/
inductive ProcessOutcome where
  | continues
  | exits (code : Nat)
deriving DecidableEq

/-- Modelled from the spec and app.py: interaction-time errors are emitted on
the parser's error signal, which app.py (lines 57-59) connects to the status
bar's `disp_error`; emitting a signal returns normally, so the process
continues.  An uncaught Python exception inside a slot reaches
`QuteBrowser.exception_hook` (app.py lines 71-83), which calls `self.exit(1)`.
Returns the list of error notifications shown and the process outcome. -/
def handle_cmd_result : RunResult → List CmdError × ProcessOutcome
  | .errored e => ([e], .continues)
  | .crashed => ([], .exits 1)
  | .ok _ => ([], .continues)

/-- The Key-Sequence Matcher's mutable state (spec section 3). -/
structure MatcherState where
  pending_digits : List Char
  pending_keys : List Char
deriving DecidableEq

/-- The initial `Idle` state: both accumulators empty. -/
def initState : MatcherState := ⟨[], []⟩

/-- What one key event produces: nothing yet, a resolved command line with an
optional count, or a no-match error. -/
inductive MatchOutput where
  | pending
  | resolved (cmdline : List Char) (count : Option Nat)
  | noMatch
deriving DecidableEq

/-- The binding table: key sequences mapped to command-line strings. -/
abbrev Bindings := List (List Char × List Char)

/-- Whether `ks` is an initial segment of the bound sequence `seq`. -/
def startsWithSeq (seq ks : List Char) : Bool :=
  decide (seq.take ks.length = ks)

/-- Whether some binding strictly extends `ks`. -/
def hasStrictExtension (b : Bindings) (ks : List Char) : Bool :=
  b.any (fun p => startsWithSeq p.1 ks && decide (ks.length < p.1.length))

/-- The command line bound to exactly the sequence `ks`, if any. -/
def exactBinding (b : Bindings) (ks : List Char) : Option (List Char) :=
  (b.find? (fun p => decide (p.1 = ks))).map (fun p => p.2)

/-- The accumulated count: absent if no digits were consumed. -/
def countOf (ds : List Char) : Option Nat :=
  if ds.isEmpty then none else some (digitsToNat ds)

/-- Modelled from the spec: step 3 of the matcher transitions (spec section
4.2) - after every append, compare `pending_keys` against the binding table.
An exact match with no strictly longer candidate resolves and resets; an
exact match shadowed by a longer candidate waits; a viable proper prefix
waits; a dead end emits `NoMatchError` and resets entirely. -/
def checkKeys (b : Bindings) (st : MatcherState) : MatcherState × MatchOutput :=
  match exactBinding b st.pending_keys with
  | some cmdline =>
    if hasStrictExtension b st.pending_keys then (st, .pending)
    else (initState, .resolved cmdline (countOf st.pending_digits))
  | none =>
    if hasStrictExtension b st.pending_keys then (st, .pending)
    else (initState, .noMatch)

/-- The designated cancel key (spec section 4.2 reserves one escape token). -/
def cancelKey : Char := Char.ofNat 27

/-- Modelled from the spec: the Key-Sequence Matcher transition function
(spec section 4.2); its code, qutebrowser/commands/keys.py `KeyParser`, is
not under src/.  A cancel key resets unconditionally; a digit while no key
tokens are pending (and not a lone leading zero) extends the count
accumulator; any other event extends the key accumulator; then the table is
consulted. -/
def matcher_handle (b : Bindings) (st : MatcherState) (e : Char) :
    MatcherState × MatchOutput :=
  if e = cancelKey then (initState, .pending)
  else if st.pending_keys.isEmpty && e.isDigit &&
      (!st.pending_digits.isEmpty || e != '0') then
    checkKeys b ⟨st.pending_digits ++ [e], st.pending_keys⟩
  else
    checkKeys b ⟨st.pending_digits, st.pending_keys ++ [e]⟩

/-- Modelled from the spec: a `NoMatchError` from the matcher is emitted on
the key parser's error signal, which app.py (lines 58-59) connects to the
status bar's `disp_error`; nothing terminates the process. -/
def matcher_report : MatchOutput → List CmdError × ProcessOutcome
  | .noMatch => ([.NoMatchError], .continues)
  | _ => ([], .continues)

/-- Outcome of Python's `eval(s)` as seen by `pyeval`: a value (identified by
its `repr` string), an exception deriving from `Exception`, or an exception
deriving only from `BaseException` (such as SystemExit or KeyboardInterrupt),
which `except Exception` does not catch. -/
inductive PyEvalOutcome where
  | value (reprStr : String)
  | raisedExc (cls msg : String)
  | raisedBase (cls msg : String)
deriving DecidableEq

/-- What `QuteBrowser.pyeval` does with a string: set output text on the
`about:pyeval` tab, or let an exception propagate out of the method. -/
inductive PyevalResult where
  | output (text : String)
  | propagated (cls : String)
deriving DecidableEq

/-- `QuteBrowser.pyeval` from src/qutebrowser/app.py lines 168-180,
parameterised by the semantics `ev` of Python's `eval`.  The source wraps
`eval` and `repr` in `try ... except Exception as e`, producing
`': '.join([e.__class__.__name__, str(e)])` on a caught exception; an
exception not deriving from `Exception` is not caught and propagates. -/
def pyeval (ev : String → PyEvalOutcome) (s : String) : PyevalResult :=
  match ev s with
  | .value r => .output r
  | .raisedExc cls msg => .output (cls ++ ": " ++ msg)
  | .raisedBase cls _ => .propagated cls

/-- CPython semantics of `eval` on the input "exit()": the `site` module's
`exit` builtin raises SystemExit, which derives from BaseException but not
from Exception.  Other inputs are given an arbitrary harmless value; only
the behaviour at "exit()" is appealed to. -/
def evalWithExit (s : String) : PyEvalOutcome :=
  if s = "exit()" then .raisedBase "SystemExit" "" else .value "None"

/-- Whether an event is a signal emission. -/
def isEmitEvent : Event → Bool
  | .signalEmit _ => true
  | .actionCall _ => false

/-- Whether some signal emission occurs strictly after some action call. -/
def emitAfterCall : List Event → Bool
  | [] => false
  | .actionCall _ :: rest => rest.any isEmitEvent || emitAfterCall rest
  | .signalEmit _ :: rest => emitAfterCall rest

/-! ## Shared helper lemmas -/

/-- A successful registry lookup comes from a registered pair. -/
theorem regLookup_mem (reg : List (String × Bool)) (name : String) (ac : Bool)
    (h : regLookup reg name = some ac) : (name, ac) ∈ reg := by
  induction reg with
  | nil => simp [regLookup] at h
  | cons p rest ih =>
    obtain ⟨k, v⟩ := p
    by_cases hk : name = k
    · subst hk
      simp [regLookup] at h
      simp [h]
    · simp [regLookup, hk] at h
      exact List.mem_cons_of_mem _ (ih h)

/-- Full characterisation of a dispatch whose name is registered (with count
flag `ac`) and present in `cmd_handler`'s table: the signal is emitted with
the tuple `(count, [name] + args)`, and the handler is called with the
positional arguments and a `count` keyword argument exactly when the
emitting command's count flag is set. -/
theorem dispatch_invocation_eq (reg : List (String × Bool))
    (inv : ParsedInvocation) (ac : Bool) (hdl : Handler)
    (hreg : regLookup reg inv.name = some ac)
    (hh : handlersLookup inv.name = some hdl) :
    dispatch_invocation reg inv =
      .ok [.signalEmit (inv.count, inv.name :: inv.args),
           .actionCall ⟨hdl, inv.args, if ac then some inv.count else none⟩] := by
  cases ac <;>
    simp [dispatch_invocation, registry_lookup, hreg, cmd_handler, hh]

/-- A successful dict lookup comes from an entry of the list. -/
theorem dictLookup_mem (k : String) (v : Handler) (l : List (String × Handler))
    (h : dictLookup k l = some v) : (k, v) ∈ l := by
  induction l with
  | nil => simp [dictLookup] at h
  | cons p rest ih =>
    obtain ⟨k2, v2⟩ := p
    by_cases hk : k = k2
    · subst hk
      simp [dictLookup] at h
      simp [h]
    · simp [dictLookup, hk] at h
      exact List.mem_cons_of_mem _ (ih h)

/-- No key of the `handlers` dict resolves to `cur_scroll_percent_x`: the
only entry binding it is shadowed by the later entry with the same key. -/
theorem handlersLookup_ne_x (n : String) :
    handlersLookup n ≠ some Handler.cur_scroll_percent_x := by
  intro h
  have hmem := dictLookup_mem n Handler.cur_scroll_percent_x _ h
  rw [List.mem_reverse] at hmem
  simp [handlersList] at hmem
  subst hmem
  exact absurd h (by decide)

/-! ## C1 -/

/-- C1 counterexample: dispatching the invocation of "5 quit" against a
registry in which quit has accepts_count = false does not fail with
CountNotSupportedError - it succeeds, and the action IS invoked (with the
count silently dropped), contradicting the claim. -/
theorem c1_count_rejected_counterexample :
    dispatch_invocation [("quit", false)] ⟨some 5, "quit", []⟩ =
      .ok [.signalEmit (some 5, ["quit"]),
           .actionCall ⟨.quit, [], none⟩] ∧
    dispatch_invocation [("quit", false)] ⟨some 5, "quit", []⟩ ≠
      .errored .CountNotSupportedError := by
  exact ⟨by decide, by decide⟩

/-- C1 (amended): for every command registered with accepts_count = false,
dispatching an invocation that carries a count invokes the command's action
with the positional arguments and no count parameter: the count is silently
dropped, and no CountNotSupportedError (or any other error) is produced. -/
theorem c1_count_silently_dropped (reg : List (String × Bool))
    (inv : ParsedInvocation) (c : Nat) (hdl : Handler)
    (hc : inv.count = some c)
    (hreg : regLookup reg inv.name = some false)
    (hh : handlersLookup inv.name = some hdl) :
    dispatch_invocation reg inv =
      .ok [.signalEmit (some c, inv.name :: inv.args),
           .actionCall ⟨hdl, inv.args, none⟩] := by
  have h := dispatch_invocation_eq reg inv false hdl hreg hh
  rw [hc] at h
  simpa using h

/-- C1 witness: the amended claim at a concrete input. -/
theorem c1_witness :
    dispatch_invocation [("quit", false)] ⟨some 3, "quit", ["a"]⟩ =
      .ok [.signalEmit (some 3, ["quit", "a"]),
           .actionCall ⟨.quit, ["a"], none⟩] :=
  c1_count_silently_dropped [("quit", false)] ⟨some 3, "quit", ["a"]⟩ 3
    .quit rfl (by decide) (by decide)

/-! ## C2 -/

/-- C2 counterexample: a count-accepting command dispatched WITHOUT a count
still receives a `count` keyword argument (with value None): the call record
carries `countArg = some none`, not the claimed absence of the parameter. -/
theorem c2_count_kwarg_counterexample :
    dispatch_invocation [("scroll_perc_y", true)] ⟨none, "scroll_perc_y", []⟩ =
      .ok [.signalEmit (none, ["scroll_perc_y"]),
           .actionCall ⟨.cur_scroll_percent_y, [], some none⟩] ∧
    HandlerCall.countArg ⟨.cur_scroll_percent_y, [], some none⟩ ≠ none := by
  exact ⟨by decide, by decide⟩

/-- C2 (amended): the dispatcher passes count as a named parameter exactly
when the command's accepts_count flag is true - regardless of whether a
count was supplied; the value passed is the invocation's count slot (None
when absent).  When the flag is false, no count parameter is passed. -/
theorem c2_count_flag_branching (reg : List (String × Bool))
    (inv : ParsedInvocation) (ac : Bool) (hdl : Handler)
    (hreg : regLookup reg inv.name = some ac)
    (hh : handlersLookup inv.name = some hdl) :
    dispatch_invocation reg inv =
      .ok [.signalEmit (inv.count, inv.name :: inv.args),
           .actionCall ⟨hdl, inv.args,
             if ac then some inv.count else none⟩] :=
  dispatch_invocation_eq reg inv ac hdl hreg hh

/-- C2 witness: the amended claim at a concrete input. -/
theorem c2_witness :
    dispatch_invocation [("open", true)] ⟨some 2, "open", ["u"]⟩ =
      .ok [.signalEmit (some 2, ["open", "u"]),
           .actionCall ⟨.openurl, ["u"], if true then some (some 2) else none⟩] :=
  c2_count_flag_branching [("open", true)] ⟨some 2, "open", ["u"]⟩ true
    .openurl (by decide) (by decide)

/-! ## C3 -/

/-- C3: for every invocation whose command name is not registered, the
registry lookup fails with UnknownCommandError carrying that name, and the
dispatch propagates exactly that error - no other error and no uncaught
exception. -/
theorem c3_unknown_command_propagated (reg : List (String × Bool))
    (inv : ParsedInvocation) (h : regLookup reg inv.name = none) :
    registry_lookup reg inv.name = .error (.UnknownCommandError inv.name) ∧
    dispatch_invocation reg inv = .errored (.UnknownCommandError inv.name) := by
  constructor
  · simp [registry_lookup, h]
  · simp [dispatch_invocation, registry_lookup, h]

/-- C3 witness: the claim at a concrete input. -/
theorem c3_witness :
    registry_lookup [("open", true)] "nope" =
      .error (.UnknownCommandError "nope") ∧
    dispatch_invocation [("open", true)] ⟨none, "nope", []⟩ =
      .errored (.UnknownCommandError "nope") :=
  c3_unknown_command_propagated [("open", true)] ⟨none, "nope", []⟩ (by decide)

/-! ## C9 -/

/-- C9: in `cmd_handler`'s handlers table the key "scroll_perc_y" is bound
twice and the later binding wins: looking it up yields `cur_scroll_percent_y`,
every successful dispatch of "scroll_perc_y" calls `cur_scroll_percent_y`,
and no command name ever reaches `cur_scroll_percent_x`. -/
theorem c9_duplicate_key_last_wins :
    handlersLookup "scroll_perc_y" = some Handler.cur_scroll_percent_y ∧
    (∀ n : String, handlersLookup n ≠ some Handler.cur_scroll_percent_x) ∧
    (∀ (sc : Bool) (cnt : Option Nat) (args : List String) (r : HandlerCall),
      cmd_handler sc (cnt, "scroll_perc_y" :: args) = .ok r →
        r.handler = Handler.cur_scroll_percent_y) ∧
    (∀ (sc : Bool) (tpl : Option Nat × List String) (r : HandlerCall),
      cmd_handler sc tpl = .ok r →
        r.handler ≠ Handler.cur_scroll_percent_x) := by
  refine ⟨by decide, handlersLookup_ne_x, ?_, ?_⟩
  · intro sc cnt args r h
    have hy : handlersLookup "scroll_perc_y" =
        some Handler.cur_scroll_percent_y := by decide
    cases sc <;> simp [cmd_handler, hy] at h <;> rw [← h]
  · intro sc tpl r h
    obtain ⟨cnt, argv⟩ := tpl
    cases argv with
    | nil => simp [cmd_handler] at h
    | cons cmd args =>
      cases hL : handlersLookup cmd with
      | none => simp [cmd_handler, hL] at h
      | some hd =>
        have hne := handlersLookup_ne_x cmd
        rw [hL] at hne
        have hdx : hd ≠ Handler.cur_scroll_percent_x := by
          intro he
          exact hne (by rw [he])
        cases sc <;> simp [cmd_handler, hL] at h <;> rw [← h] <;> exact hdx

/-- C9 witness: the conjuncts with hypotheses at concrete inputs. -/
theorem c9_witness :
    handlersLookup "scroll_perc_y" = some Handler.cur_scroll_percent_y ∧
    handlersLookup "open" ≠ some Handler.cur_scroll_percent_x ∧
    HandlerCall.handler ⟨.cur_scroll_percent_y, [], some (some 2)⟩ =
      Handler.cur_scroll_percent_y ∧
    HandlerCall.handler ⟨.openurl, ["u"], none⟩ ≠
      Handler.cur_scroll_percent_x :=
  ⟨c9_duplicate_key_last_wins.1,
   c9_duplicate_key_last_wins.2.1 "open",
   c9_duplicate_key_last_wins.2.2.1 true (some 2) []
     ⟨.cur_scroll_percent_y, [], some (some 2)⟩ (by decide),
   c9_duplicate_key_last_wins.2.2.2 false (none, ["open", "u"])
     ⟨.openurl, ["u"], none⟩ (by decide)⟩

/-! ## C4 -/

/-- As long as every registered name has an entry in `cmd_handler`'s table,
running a line never raises an uncaught Python exception. -/
theorem run_line_no_crash (reg : List (String × Bool)) (line : List Char)
    (hwf : ∀ p ∈ reg, (handlersLookup p.1).isSome) :
    run_line reg line ≠ .crashed := by
  unfold run_line
  cases hp : parse_line line with
  | error e => simp
  | ok inv =>
    unfold dispatch_invocation registry_lookup
    cases hr : regLookup reg inv.name with
    | none => simp [hr]
    | some ac =>
      have hs := hwf _ (regLookup_mem reg inv.name ac hr)
      simp only [Option.isSome_iff_exists] at hs
      obtain ⟨hd, hL⟩ := hs
      cases ac <;> simp [hr, cmd_handler, hL]

/-- C4: interaction-time errors are recoverable.  Any error from running a
command line is delivered as exactly one notification and the process
continues (it exits only on an uncaught exception, which cannot arise when
every registered name is in the handlers table); a `NoMatchError` from the
key-sequence matcher likewise yields exactly one notification and never
terminates the process. -/
theorem c4_interaction_errors_nonfatal :
    (∀ (reg : List (String × Bool)) (line : List Char),
      (∀ p ∈ reg, (handlersLookup p.1).isSome) →
        (handle_cmd_result (run_line reg line)).2 = .continues ∧
        (∀ e, run_line reg line = .errored e →
          (handle_cmd_result (run_line reg line)).1 = [e])) ∧
    (∀ (b : Bindings) (st : MatcherState) (e : Char),
      (matcher_report (matcher_handle b st e).2).2 = .continues ∧
      ((matcher_handle b st e).2 = .noMatch →
        (matcher_report (matcher_handle b st e).2).1 = [.NoMatchError])) := by
  constructor
  · intro reg line hwf
    have hnc := run_line_no_crash reg line hwf
    constructor
    · cases hrl : run_line reg line with
      | errored e => simp [handle_cmd_result]
      | crashed => exact absurd hrl hnc
      | ok evs => simp [handle_cmd_result]
    · intro e he
      rw [he]
      simp [handle_cmd_result]
  · intro b st e
    constructor
    · cases hm : (matcher_handle b st e).2 <;> simp [matcher_report]
    · intro hn
      rw [hn]
      simp [matcher_report]

/-- C4 witness: a concrete unknown command produces one notification and the
process continues; a concrete dead-end key press likewise. -/
theorem c4_witness :
    (handle_cmd_result (run_line [("open", true)] ['x', 'y'])).2 =
      .continues ∧
    (handle_cmd_result (run_line [("open", true)] ['x', 'y'])).1 =
      [.UnknownCommandError "xy"] ∧
    (matcher_report (matcher_handle [] initState 'x').2).2 = .continues ∧
    (matcher_report (matcher_handle [] initState 'x').2).1 =
      [.NoMatchError] :=
  ⟨(c4_interaction_errors_nonfatal.1 [("open", true)] ['x', 'y']
      (by decide)).1,
   (c4_interaction_errors_nonfatal.1 [("open", true)] ['x', 'y']
      (by decide)).2 (.UnknownCommandError "xy") (by decide),
   (c4_interaction_errors_nonfatal.2 [] initState 'x').1,
   (c4_interaction_errors_nonfatal.2 [] initState 'x').2 (by decide)⟩

/-! ## C5 -/

/-- C5: for a command registered with accepts_count = true, dispatching the
command line "5 name arg1" (a line whose whitespace tokens are "5", the name,
and "arg1") invokes that command's action with count = 5 and args = ["arg1"];
the name itself is not among the positional arguments. -/
theorem c5_counted_dispatch (reg : List (String × Bool)) (line : List Char)
    (nameTok : List Char) (hdl : Handler)
    (htok : tokenize line = [['5'], nameTok, ['a', 'r', 'g', '1']])
    (hreg : regLookup reg (String.mk nameTok) = some true)
    (hh : handlersLookup (String.mk nameTok) = some hdl) :
    run_line reg line =
      .ok [.signalEmit (some 5, [String.mk nameTok, "arg1"]),
           .actionCall ⟨hdl, ["arg1"], some (some 5)⟩] := by
  have hp : parse_line line = .ok ⟨some 5, String.mk nameTok, ["arg1"]⟩ := by
    unfold parse_line
    rw [htok]
    rfl
  unfold run_line
  rw [hp]
  have h := dispatch_invocation_eq reg ⟨some 5, String.mk nameTok, ["arg1"]⟩
    true hdl hreg hh
  simpa using h

/-- C5 witness: the claim at the concrete line "5 open arg1". -/
theorem c5_witness :
    run_line [("open", true)]
        ['5', ' ', 'o', 'p', 'e', 'n', ' ', 'a', 'r', 'g', '1'] =
      .ok [.signalEmit (some 5, [String.mk ['o', 'p', 'e', 'n'], "arg1"]),
           .actionCall ⟨.openurl, ["arg1"], some (some 5)⟩] :=
  c5_counted_dispatch [("open", true)]
    ['5', ' ', 'o', 'p', 'e', 'n', ' ', 'a', 'r', 'g', '1']
    ['o', 'p', 'e', 'n'] .openurl (by decide) (by decide) (by decide)

/-! ## C6 -/

/-- C6 counterexample: in a concrete successful dispatch the
invocation-notification (the command's signal) does NOT fire after the action
call - the trace has the emission first (the emission is what triggers the
handler), and its payload is the pair `(count, [name] + args)`, not three
separate components. -/
theorem c6_notification_order_counterexample :
    dispatch_invocation [("open", false)] ⟨none, "open", ["foo"]⟩ =
      .ok [.signalEmit (none, ["open", "foo"]),
           .actionCall ⟨.openurl, ["foo"], none⟩] ∧
    emitAfterCall [.signalEmit (none, ["open", "foo"]),
      .actionCall ⟨.openurl, ["foo"], none⟩] = false := by
  exact ⟨by decide, by decide⟩

/-- C6 (amended): for every successful dispatch the invocation-notification
fires exactly once, BEFORE the action call (it is the mechanism that triggers
`cmd_handler`), and its payload is the single tuple
`(count, [name] + args)` with the name folded into the argument vector. -/
theorem c6_notification_precedes_call (reg : List (String × Bool))
    (inv : ParsedInvocation) (ac : Bool) (hdl : Handler)
    (hreg : regLookup reg inv.name = some ac)
    (hh : handlersLookup inv.name = some hdl) :
    ∃ call : HandlerCall, call.args = inv.args ∧
      dispatch_invocation reg inv =
        .ok [.signalEmit (inv.count, inv.name :: inv.args),
             .actionCall call] ∧
      emitAfterCall [Event.signalEmit (inv.count, inv.name :: inv.args),
        Event.actionCall call] = false := by
  refine ⟨⟨hdl, inv.args, if ac then some inv.count else none⟩, rfl,
    dispatch_invocation_eq reg inv ac hdl hreg hh, ?_⟩
  rfl

/-- C6 witness: the amended claim at a concrete input. -/
theorem c6_witness :
    ∃ call : HandlerCall, call.args = ["t"] ∧
      dispatch_invocation [("tabopen", false)] ⟨none, "tabopen", ["t"]⟩ =
        .ok [.signalEmit (none, ["tabopen", "t"]), .actionCall call] ∧
      emitAfterCall [Event.signalEmit (none, ["tabopen", "t"]),
        Event.actionCall call] = false :=
  c6_notification_precedes_call [("tabopen", false)]
    ⟨none, "tabopen", ["t"]⟩ false .tabopen (by decide) (by decide)

/-! ## C7 -/

/-- C7: a line consisting of a single whitespace-delimited token that is a
nonempty run of decimal digits (a count with no command name after it) fails
with MalformedCountError. -/
theorem c7_count_without_command (line t : List Char)
    (htok : tokenize line = [t]) (hne : t ≠ [])
    (hdig : t.all Char.isDigit = true) :
    parse_line line = .error .MalformedCountError := by
  unfold parse_line
  rw [htok]
  cases t with
  | nil => exact absurd rfl hne
  | cons c cs => simp [parseTokens, hdig]

/-- C7 witness: the claim at the concrete line "42". -/
theorem c7_witness :
    parse_line ['4', '2'] = .error .MalformedCountError :=
  c7_count_without_command ['4', '2'] ['4', '2']
    (by decide) (by decide) (by decide)

/-! ## C8 -/

/-- After the table comparison, a resolving or erroring step leaves the
matcher in the initial state. -/
theorem checkKeys_terminal (b : Bindings) (st : MatcherState)
    (h : (checkKeys b st).2 = .noMatch ∨
      ∃ cl c, (checkKeys b st).2 = .resolved cl c) :
    (checkKeys b st).1 = initState := by
  by_cases hs : hasStrictExtension b st.pending_keys = true
  · exfalso
    unfold checkKeys at h
    rcases hx : exactBinding b st.pending_keys with _ | cl <;>
      rw [hx] at h <;> simp [hs] at h
  · unfold checkKeys
    rcases hx : exactBinding b st.pending_keys with _ | cl <;> simp [hs]

/-- C8: after every resolved match and after every NoMatchError, the
matcher's state equals the initial Idle state exactly - both the digit
accumulator and the key accumulator are empty. -/
theorem c8_reset_to_idle (b : Bindings) (st : MatcherState) (e : Char)
    (h : (matcher_handle b st e).2 = .noMatch ∨
      ∃ cl c, (matcher_handle b st e).2 = .resolved cl c) :
    (matcher_handle b st e).1 = initState := by
  unfold matcher_handle at *
  split_ifs at * with h1 h2
  · rfl
  · exact checkKeys_terminal _ _ h
  · exact checkKeys_terminal _ _ h

/-- C8 witness: a dead-end key press against an empty table resets to Idle
(and, per the hypothesis discharged here, it is a NoMatchError step). -/
theorem c8_witness :
    (matcher_handle [] initState 'z').1 = initState :=
  c8_reset_to_idle [] initState 'z' (Or.inl (by decide))

/-! ## C10 -/

/-- C10 counterexample: evaluating "exit()" raises SystemExit, which
`except Exception` does not catch, so `pyeval` propagates it instead of
producing output text - refuting the claim that no input ever propagates. -/
theorem c10_base_exception_counterexample :
    pyeval evalWithExit "exit()" = .propagated "SystemExit" := by decide

/-- C10 (amended): `pyeval` produces output text for every evaluation that
returns a value or raises an exception deriving from `Exception` (the repr
of the value, or "ClassName: message"); an exception deriving only from
`BaseException` is the single case that propagates. -/
theorem c10_pyeval_output_or_base (ev : String → PyEvalOutcome) (s : String) :
    (∃ t, pyeval ev s = .output t) ∨
    (∃ cls msg, ev s = .raisedBase cls msg ∧
      pyeval ev s = .propagated cls) := by
  unfold pyeval
  cases hv : ev s with
  | value r => exact Or.inl ⟨r, rfl⟩
  | raisedExc cls msg => exact Or.inl ⟨cls ++ ": " ++ msg, rfl⟩
  | raisedBase cls msg => exact Or.inr ⟨cls, msg, rfl, rfl⟩

